import Mathlib

/-!
# Social-Hunt: verification of the scan engine and provider probes

Shallow embedding of the Social-Hunt OSINT scanner core
(`src/social_hunt/engine.py` and the provider probes under
`src/social_hunt/providers/`), together with theorems settling the
specification claims about it.

Conventions of the embedding:
* Python dictionaries that preserve insertion order are modelled as
  association lists (`List (String × _)`).
* The network is abstracted per provider: each `check` model takes a value
  describing the single observation the source branches on (response status
  codes, parsed payload shape, or a raised exception's message).  The pure
  JSON-to-`profile` extraction loops of the breach providers are carried as
  opaque payload lists, since no claim mentions the `profile` contents.
* `asyncio` concurrency collapses to deterministic sequencing: `gather`
  preserves task order in its result list regardless of completion order,
  and raises the first exception of any task, which the engine does not
  catch for addon tasks.
* Wall-clock values (`elapsed_ms`, ISO timestamps) are parameters.
-/

/-- Modelled from the spec (section 3, "Status semantics"): the five-valued
result status enum of `social_hunt/types.py`, a file not present under
`src/`; the providers and the engine reference `ResultStatus.FOUND`,
`NOT_FOUND`, `BLOCKED`, `ERROR`, `UNKNOWN`. -/
inductive ResultStatus where
  | found
  | not_found
  | blocked
  | error
  | unknown
deriving DecidableEq, Repr

/-- JSON-like values populating the open `evidence` and `profile` mappings
(spec section 9: "null | bool | number | string | list | map"). -/
inductive JVal where
  | null
  | jbool (b : Bool)
  | jnum (n : Int)
  | jstr (s : String)
  | jarr (l : List JVal)
  | jobj (l : List (String × JVal))

/-- Modelled from the spec (section 3, "ProbeResult" and section 4.A): the
normalised result record of `social_hunt/types.py` (not present under
`src/`).  The constructor is total; omitted fields take their zero-values
(`UNKNOWN` status, absent `http_status`, zero `elapsed_ms`, empty mappings,
absent `error`). -/
structure ProviderResult where
  provider : String
  username : String
  url : String
  status : ResultStatus := .unknown
  http_status : Option Nat := none
  elapsed_ms : Nat := 0
  evidence : List (String × JVal) := []
  profile : List (String × JVal) := []
  error : Option String := none
  timestamp_iso : String := ""

/-- Python truthiness of an optional string: `not s` is true for `None`
and for the empty string. -/
def pyFalsyStr (s : Option String) : Bool :=
  match s with
  | none => true
  | some s => s.isEmpty

/-- Python `needle in hay` on strings: substring containment. -/
def hasSubstr (hay needle : String) : Bool :=
  decide (needle.data <:+: hay.data)

/-- Python `s.strip()`: drop leading and trailing whitespace (ASCII
whitespace; Python also strips some further Unicode space characters). -/
def pyStrip (s : String) : String :=
  String.mk (((s.data.dropWhile Char.isWhitespace).reverse.dropWhile
    Char.isWhitespace).reverse)

/-- Probe metadata and `build_url`, the immutable per-instance data of
`providers_base.BaseProvider` that `engine.run_one` reads
(`name`, `timeout`, `ua_profile`, `use_proxy`, `build_url`). -/
structure Probe where
  name : String
  timeout : Nat
  ua_profile : String
  use_proxy : Bool
  buildUrl : String → String

/-- Modelled from the spec (section 4.H): an addon is a post-processor
`run(identifier, results, client, limiter)` that observes and may augment
the result list, and may raise (`addons_base.BaseAddon` is not present
under `src/`).  A run either returns the (possibly mutated) result list or
raises with a message. -/
structure Addon where
  run : String → List ProviderResult → Except String (List ProviderResult)

/-- `engine.scan_username` lines 38-41: the working probe-name set.
`if providers:` is Python truthiness, so an empty filter list behaves like
no filter; otherwise the comprehension keeps, in the FILTER's order, the
names present in the registry. -/
def chosenNames (registryKeys : List String) (providers : Option (List String)) :
    List String :=
  match providers with
  | some ps =>
      if ps.isEmpty then registryKeys
      else ps.filter (fun p => registryKeys.contains p)
  | none => registryKeys

/-- The spec's own wording for the working probe set ("intersect with the
registry preserving registry iteration order"), stated for comparison with
the source's `chosenNames`. -/
def chosenNamesSpec (registryKeys : List String) (providers : Option (List String)) :
    List String :=
  match providers with
  | some ps => registryKeys.filter (fun p => ps.contains p)
  | none => registryKeys

/-- Which HTTP client `run_one` dispatches the probe through
(`engine.py` lines 83-92). -/
inductive ClientChoice where
  | tor
  | clearnetProxy
  | direct
deriving DecidableEq, Repr

/-- `engine.run_one` lines 87-92: client selection.  `torAvailable` is the
presence of `client_tor` (env `SOCIAL_HUNT_PROXY` set), `clearnetAvailable`
the presence of `client_clearnet_proxy` (env `SOCIAL_HUNT_CLEARNET_PROXY`
set), `useProxy` the probe's `use_proxy` attribute. -/
def selectClient (url : String) (torAvailable clearnetAvailable useProxy : Bool) :
    ClientChoice :=
  if hasSubstr url ".onion" && torAvailable then .tor
  else if useProxy && clearnetAvailable then .clearnetProxy
  else .direct

/-- `engine.run_one` lines 119-133: demo-mode censorship of one `profile`
entry.  A list value under the key `raw_results` goes through
`censor_breach_data`; a nested mapping is censored per inner key; any other
value through `censor_value`.  `cv k v` models `censor_value(v, k)` and
`cb` models `censor_breach_data` (the `demo` module is not present under
`src/`; both censors are opaque parameters). -/
def censorProfileEntry (cv : String → JVal → JVal) (cb : List JVal → List JVal)
    (k : String) (v : JVal) : JVal :=
  match v with
  | .jarr l => if k == "raw_results" then .jarr (cb l) else cv k (.jarr l)
  | .jobj l => .jobj (l.map (fun p => (p.1, cv p.1 p.2)))
  | v => cv k v

/-- `engine.run_one` lines 135-144: demo-mode censorship of one `evidence`
entry (no `raw_results` case). -/
def censorEvidenceEntry (cv : String → JVal → JVal) (k : String) (v : JVal) : JVal :=
  match v with
  | .jobj l => .jobj (l.map (fun p => (p.1, cv p.1 p.2)))
  | v => cv k v

/-- `engine.run_one` lines 116-144: when demo mode is on, replace a
non-empty `profile` and a non-empty `evidence` by their censored images
(`if res.profile:` / `if res.evidence:` skip empty mappings). -/
def applyDemo (demo : Bool) (cv : String → JVal → JVal) (cb : List JVal → List JVal)
    (r : ProviderResult) : ProviderResult :=
  if demo then
    let r1 := if r.profile.isEmpty then r
      else { r with profile := r.profile.map (fun p => (p.1, censorProfileEntry cv cb p.1 p.2)) }
    if r1.evidence.isEmpty then r1
    else { r1 with evidence := r1.evidence.map (fun p => (p.1, censorEvidenceEntry cv p.1 p.2)) }
  else r

/-- `engine.run_one` lines 94-148, after client selection: the probe's
`check` runs under `asyncio.wait_for` with outer timeout
`getattr(prov, "timeout", 15) + 5`.  `outcome = some r` models the check
completing in time with result `r` (the provider contract, section 4.C,
forbids `check` from raising); `outcome = none` models the outer
`asyncio.TimeoutError`, for which lines 102-114 synthesise an ERROR
result.  Demo censorship then applies either way. -/
def runOne (demo : Bool) (cv : String → JVal → JVal) (cb : List JVal → List JVal)
    (p : Probe) (username ts : String) (outcome : Option ProviderResult) :
    ProviderResult :=
  let res := match outcome with
    | some r => r
    | none =>
        let n := p.timeout + 5
        { provider := p.name
          username := username
          url := p.buildUrl username
          status := .error
          http_status := none
          elapsed_ms := n * 1000
          evidence := []
          profile := []
          error := some ("Timed out after " ++ toString n ++ "s")
          timestamp_iso := ts }
  applyDemo demo cv cb res

/-- Placeholder probe for the (unreachable) registry-lookup default: the
chosen names are always registry keys, so `List.lookup` never misses. -/
def defaultProbe : Probe :=
  { name := "base", timeout := 10, ua_profile := "desktop_chrome",
    use_proxy := false, buildUrl := fun _ => "" }

/-- Addon whose run is a no-op, for the (unreachable) addon-registry
lookup default. -/
def defaultAddon : Addon :=
  { run := fun _ rs => .ok rs }

/-- `engine.scan_username` lines 150-151: one task per chosen name, gathered
in task order.  `outcomes` maps each provider name to its check outcome. -/
def probeResults (registry : List (String × Probe)) (username ts : String)
    (providers : Option (List String)) (outcomes : String → Option ProviderResult)
    (demo : Bool) (cv : String → JVal → JVal) (cb : List JVal → List JVal) :
    List ProviderResult :=
  (chosenNames (registry.map Prod.fst) providers).map
    (fun n => runOne demo cv cb ((registry.lookup n).getD defaultProbe) username ts (outcomes n))

/-- `engine.scan_username` lines 154-160: enabled addons resolved through
the addon registry (in enabled-name order, names absent from the registry
skipped), then the caller's dynamic addons appended. -/
def addonsToRun (addonRegistry : List (String × Addon)) (enabled : List String)
    (dyn : List Addon) : List Addon :=
  (enabled.filter (fun n => (addonRegistry.lookup n).isSome)).map
    (fun n => (addonRegistry.lookup n).getD defaultAddon) ++ dyn

/-- `engine.scan_username` lines 162-169: the addon tasks run over the
shared result list and are awaited by a bare `asyncio.gather`, which
re-raises the first exception; the engine catches nothing here.  Each
successful run yields the (possibly mutated) list seen by the next. -/
def runAddons (username : String) (addons : List Addon)
    (results : List ProviderResult) : Except String (List ProviderResult) :=
  match addons with
  | [] => .ok results
  | a :: rest =>
      match a.run username results with
      | .ok rs => runAddons username rest rs
      | .error e => .error e

/-- Case-insensitive provider order: the sort key of
`engine.scan_username` line 171 (`key=lambda r: r.provider.lower()`). -/
def providerLe (a b : ProviderResult) : Prop :=
  a.provider.toLower ≤ b.provider.toLower

instance : DecidableRel providerLe :=
  fun a b => (inferInstance : Decidable (a.provider.toLower ≤ b.provider.toLower))

instance : IsTotal ProviderResult providerLe :=
  ⟨fun a b => le_total a.provider.toLower b.provider.toLower⟩

instance : IsTrans ProviderResult providerLe :=
  ⟨fun _ _ _ h1 h2 => le_trans h1 h2⟩

/-- `engine.scan_username` line 171: `sorted(results, key=...)`.  Python's
sort is stable, as is insertion sort; a stable sort's output is determined
by the input order and the (total, transitive) key order, so the two agree
extensionally. -/
def sortResults (rs : List ProviderResult) : List ProviderResult :=
  rs.insertionSort providerLe

/-- `engine.scan_username` lines 31-171 end to end: probe fan-out, addon
stage, final sort.  An exception raised by an addon's `run` escapes the
`AsyncExitStack` (which only closes the HTTP clients) and propagates to
the caller. -/
def scanUsername (registry : List (String × Probe)) (username : String)
    (providers : Option (List String)) (dynamicAddons : List Addon)
    (enabledAddonNames : List String) (addonRegistry : List (String × Addon))
    (outcomes : String → Option ProviderResult) (demo : Bool)
    (cv : String → JVal → JVal) (cb : List JVal → List JVal) (ts : String) :
    Except String (List ProviderResult) :=
  let results := probeResults registry username ts providers outcomes demo cv cb
  let addons := addonsToRun addonRegistry enabledAddonNames dynamicAddons
  match runAddons username addons results with
  | .ok rs => .ok (sortResults rs)
  | .error e => .error e

/-! ## Discord provider (`providers/discord.py`) -/

/-- The pattern of `re.match(r"^\d{17,20}$", s)` on a stripped string:
17 to 20 decimal digits (ASCII; the model narrows Python's Unicode `\d`
to ASCII digits, which covers every digit the provider documents). -/
def discordIdPat (s : String) : Bool :=
  17 ≤ s.length && s.length ≤ 20 && s.data.all Char.isDigit

/-- The pattern of `re.match(r"^[a-zA-Z0-9]{2,10}$", s)` on a stripped
string: 2 to 10 ASCII alphanumerics. -/
def discordInvitePat (s : String) : Bool :=
  2 ≤ s.length && s.length ≤ 10 && s.data.all (fun c => c.isAlpha || c.isDigit)

/-- `DiscordProvider.build_url` lines 15-25.  The numeric-ID branch and the
vanity fallback both produce `https://discord.com/users/{username}`, so only
the invite branch is distinguished. -/
def discordBuildUrl (username : String) : String :=
  if discordInvitePat (pyStrip username) then "https://discord.gg/" ++ username
  else "https://discord.com/users/" ++ username

/-- `DiscordProvider.check` lines 27-67: a pure link generator and format
validator — the source performs no HTTP request.  `ts` abstracts
`datetime.now`. -/
def discordCheck (username ts : String) : ProviderResult :=
  let url := discordBuildUrl username
  let cleanUser := pyStrip username
  let isId := discordIdPat cleanUser
  let isInvite := !isId && discordInvitePat cleanUser
  let status := if !(isId || isInvite) then ResultStatus.not_found else .unknown
  let err := if !(isId || isInvite) then "Invalid Discord ID or invite code format."
    else "Verification not possible. Discord profiles are not public."
  { provider := "discord"
    username := username
    url := url
    status := status
    http_status := none
    elapsed_ms := 0
    evidence := [("note", .jstr "Link generation only."),
                 ("type", .jstr (if isId then "User ID"
                   else if isInvite then "Invite" else "Unknown"))]
    profile := []
    error := some err
    timestamp_iso := ts }

/-! ## Stack Overflow provider (`providers/stackoverflow.py`) -/

/-- `"".join(filter(str.isdigit, username))`: the digit-filtered ID. -/
def soCleanId (username : String) : String :=
  String.mk (username.data.filter Char.isDigit)

/-- `StackOverflowProvider.build_url` lines 15-22. -/
def soBuildUrl (username : String) : String :=
  if soCleanId username ≠ "" then "https://stackoverflow.com/users/" ++ soCleanId username
  else "https://stackoverflow.com/"

/-- Network observation of `StackOverflowProvider.check`: either the GET (or
anything in the `try`) raised, or a response arrived with a status code,
the two lowercase-text markers `"reputation"` and `"profile"`, and a final
URL after redirects. -/
inductive SONet where
  | raised (msg : String)
  | page (code : Nat) (hasReputation hasProfileWord : Bool) (finalUrl : String)

/-- `StackOverflowProvider.check` lines 24-74.  Note that the success path
reports `username=clean_id` (the digit-filtered input), not the input. -/
def stackoverflowCheck (username ts : String) (net : SONet) : ProviderResult :=
  let cleanId := soCleanId username
  if cleanId = "" then
    { provider := "stackoverflow"
      username := username
      url := soBuildUrl username
      status := .not_found
      error := some "Invalid format. Stack Overflow requires a numeric user ID."
      elapsed_ms := 0
      profile := []
      timestamp_iso := ts }
  else
    match net with
    | .raised e =>
        { provider := "stackoverflow"
          username := username
          url := soBuildUrl username
          status := .error
          error := some e
          profile := []
          timestamp_iso := ts }
    | .page code hasRep hasProf finalUrl =>
        let status := if code == 200 && hasRep && hasProf then ResultStatus.found
          else .not_found
        { provider := "stackoverflow"
          username := cleanId
          url := finalUrl
          status := status
          http_status := some code
          evidence := [("note", .jstr "Search by User ID")]
          profile := []
          timestamp_iso := ts }

/-! ## Goodreads provider (`providers/goodreads.py`) -/

/-- Network observation of `GoodreadsProvider.check`: a raised exception, or
a response with its status code and the first
`re.search(r'href="(/user/show/[^"]+)"', text)` capture (if any). -/
inductive GRNet where
  | raised (msg : String)
  | page (code : Nat) (profilePath : Option String)

/-- `GoodreadsProvider.check` lines 21-63. -/
def goodreadsCheck (username ts : String) (net : GRNet) : ProviderResult :=
  let searchUrl := "https://www.goodreads.com/search?q=" ++ username
  match net with
  | .raised e =>
      { provider := "goodreads"
        username := username
        url := searchUrl
        status := .error
        error := some e
        profile := []
        timestamp_iso := ts }
  | .page code pp =>
      let finalUrl := match pp with
        | some path => "https://www.goodreads.com" ++ path
        | none => searchUrl
      let status := match pp with
        | some _ => ResultStatus.found
        | none => .not_found
      { provider := "goodreads"
        username := username
        url := finalUrl
        status := status
        http_status := some code
        evidence := [("note", .jstr "Found via user search")]
        profile := []
        timestamp_iso := ts }

/-! ## HIBP provider (`providers/hibp.py`) -/

/-- Character class `[a-zA-Z0-9._%+-]` of the HIBP email regex. -/
def isHibpLocalChar (c : Char) : Bool :=
  c.isAlpha || c.isDigit || c == '.' || c == '_' || c == '%' || c == '+' || c == '-'

/-- Character class `[a-zA-Z0-9.-]` of the HIBP email regex. -/
def isHibpDomainChar (c : Char) : Bool :=
  c.isAlpha || c.isDigit || c == '.' || c == '-'

/-- `re.match(r"^[a-zA-Z0-9._%+-]+@[a-zA-Z0-9.-]+\.[a-zA-Z]{2,}$", s)`
(hibp.py line 72), executably: the part before the first `@` is a non-empty
run of local characters, and the part after it decomposes at its last dot
into a non-empty run of domain characters and a final run of at least two
letters.  Since the trailing run must be all-alphabetic, only the last dot
can anchor it, so the greedy regex and this decomposition agree (ASCII
classes; `$` coincides with end-of-string on inputs without a trailing
newline). -/
def hibpEmailFormat (s : String) : Bool :=
  match s.data.span (fun c => c != '@') with
  | (localPart, _at :: domainPart) =>
      !localPart.isEmpty && localPart.all isHibpLocalChar &&
      (let rev := domainPart.reverse
       let tld := rev.takeWhile (fun c => c.isAlpha)
       match rev.drop tld.length with
       | '.' :: rest => 2 ≤ tld.length && !rest.isEmpty && rest.all isHibpDomainChar
       | _ => false)
  | (_, []) => false

/-- The two parallel HIBP responses and their parsed payloads, plus the
measured elapsed time.  `breachNames` models the `Name` fields of the
breach JSON (read only when `breachCode = 200`), `pasteCount` the length
of the paste JSON (read only when `pasteCode = 200`); any in-`try`
exception (transport or JSON) is the `raised` case. -/
inductive HibpNet where
  | raised (msg : String)
  | ok (breachCode pasteCode : Nat) (breachNames : List String) (pasteCount : Nat)
      (elapsedMs : Nat)

/-- hibp.py lines 130-140: the overall status.  `breaches_found` is set
exactly when the breach request returned 200, `pastes_found` exactly when
the paste request did. -/
def hibpStatusOf (bc pc : Nat) : ResultStatus :=
  if bc == 200 || pc == 200 then .found
  else if bc == 429 || pc == 429 then .blocked
  else if bc == 404 && pc == 404 then .not_found
  else if 500 ≤ bc || 500 ≤ pc then .error
  else .unknown

/-- hibp.py lines 109-128: the `profile` entries contributed by one of the
two responses (`count` and `names` are read only in the 200 branch). -/
def hibpProfilePart (prefixKey : String) (code : Nat) (count : Nat)
    (names : Option (List String)) : List (String × JVal) :=
  if code == 200 then
    [(prefixKey ++ "_count", .jnum count)] ++
      (match names with
       | some ns => [("breaches", .jarr (ns.map JVal.jstr))]
       | none => [])
  else if code == 429 then [(prefixKey ++ "_error", .jstr "Rate limited")]
  else if code != 404 then
    [(prefixKey ++ "_error", .jstr ("Unexpected status: " ++ toString code))]
  else []

/-- `HIBPProvider.check` lines 43-169.  `apiKey` is the instance's key
(`None` or the settings value; Python tests it for truthiness, so the
empty string also skips). -/
def hibpCheck (apiKey : Option String) (username ts : String) (net : HibpNet) :
    ProviderResult :=
  let url := "https://haveibeenpwned.com/api/v3/breachedaccount/" ++ username
  if pyFalsyStr apiKey then
    { provider := "hibp", username := username, url := url,
      status := .unknown,
      error := some "Skipped: HIBP API key not set in Settings (hibp_api_key).",
      timestamp_iso := ts }
  else if hasSubstr username "*" then
    { provider := "hibp", username := username, url := url,
      status := .error,
      error := some "HIBP does not support wildcard searches.",
      timestamp_iso := ts }
  else if !hibpEmailFormat username then
    { provider := "hibp", username := username, url := url,
      status := .not_found,
      error := some "Invalid format: HIBP requires an email address.",
      timestamp_iso := ts }
  else
    match net with
    | .raised e =>
        { provider := "hibp", username := username, url := url,
          status := .error, error := some e, timestamp_iso := ts }
    | .ok bc pc breachNames pasteCount el =>
        let evidence :=
          (if bc == 200 then [("breaches_found", JVal.jbool true)] else []) ++
          (if pc == 200 then [("pastes_found", JVal.jbool true)] else [])
        let profile :=
          hibpProfilePart "breach" bc breachNames.length (some breachNames) ++
          hibpProfilePart "paste" pc pasteCount none
        let status := hibpStatusOf bc pc
        let errMsg :=
          if status = .blocked then some "HIBP API Rate Limit Exceeded (429)."
          else if status = .error then
            some ("HIBP API Error (Breach: " ++ toString bc ++ ", Paste: "
              ++ toString pc ++ ")")
          else none
        { provider := "hibp", username := username, url := url,
          status := status, error := errMsg, http_status := some bc,
          elapsed_ms := el, evidence := evidence, profile := profile,
          timestamp_iso := ts }

/-! ## Shared input-format helpers of the breach providers -/

/-- `clean = term.replace("+","").replace("-","").replace(" ","")
.replace("(","").replace(")","")` followed by
`clean.isdigit() and 7 <= len(clean) <= 15`. -/
def isPhoneLike (term : String) : Bool :=
  let clean := term.data.filter
    (fun c => !(c == '+' || c == '-' || c == ' ' || c == '(' || c == ')'))
  !clean.isEmpty && clean.all Char.isDigit &&
    7 ≤ clean.length && clean.length ≤ 15

/-- `"." in term and term.count(".") == 3` and every dot-separated part is
a digit run whose value is at most 255 (`int(p)` is total here because
`p.isdigit()` is checked first). -/
def isIpDotQuad (term : String) : Bool :=
  term.data.contains '.' && (term.data.filter (fun c => c == '.')).length == 3 &&
    (term.splitOn ".").all
      (fun p => !p.isEmpty && p.data.all Char.isDigit && p.toNat?.getD 256 ≤ 255)

/-! ## LeakCheck provider (`providers/leakcheck.py`) -/

/-- `LeakCheckProvider._determine_query_type` lines 55-69.  The IPv4
sub-branch of the source also returns `"auto"`, so it collapses into the
final return. -/
def lcQueryType (term : String) : String :=
  if term.data.contains '@' && term.data.contains '.' then "email"
  else if isPhoneLike term then "phone"
  else "auto"

/-- Network observation of `LeakCheckProvider.check`: a raised exception
(with the elapsed time measured in the handler), or a response with its
status code, the parsed `success` flag and optional `message`, whether the
parsed `result` list is non-empty, and the `profile` entries the found
branch extracts from it (result count, breach sources, demo flag, raw
results, data-type histogram — opaque here, no claim reads them). -/
inductive LCNet where
  | raised (msg : String) (elapsedMs : Nat)
  | responded (code : Nat) (success : Bool) (failMsg : Option String)
      (hasData : Bool) (foundExtras : List (String × JVal)) (elapsedMs : Nat)

/-- `LeakCheckProvider.check` lines 71-280. -/
def leakcheckCheck (apiKey : Option String) (username ts : String) (net : LCNet) :
    ProviderResult :=
  let term := pyStrip username
  let url := if term ≠ "" then "https://leakcheck.io/api/v2/query/" ++ term
    else "https://leakcheck.io/api/v2/query"
  if pyFalsyStr apiKey then
    { provider := "leakcheck", username := username, url := url,
      status := .unknown, http_status := none, elapsed_ms := 0,
      evidence := [], profile := [],
      error := some "Skipped: LeakCheck API key not set in Settings (leakcheck_api_key).",
      timestamp_iso := ts }
  else if term = "" then
    { provider := "leakcheck", username := username, url := url,
      status := .error, http_status := none, elapsed_ms := 0,
      evidence := [], profile := [],
      error := some "Empty input.", timestamp_iso := ts }
  else
    let profile0 : List (String × JVal) :=
      [("account", .jstr term), ("query_type", .jstr (lcQueryType term))]
    let evidence : List (String × JVal) := [("leakcheck", .jbool true)]
    match net with
    | .raised e el =>
        { provider := "leakcheck", username := username, url := url,
          status := .error, http_status := none, elapsed_ms := el,
          evidence := evidence, profile := profile0,
          error := some e, timestamp_iso := ts }
    | .responded code success failMsg hasData extras el =>
        if code == 200 then
          if !success then
            { provider := "leakcheck", username := username, url := url,
              status := .error, http_status := some code, elapsed_ms := el,
              evidence := evidence, profile := profile0,
              error := some (failMsg.getD "LeakCheck returned success=false."),
              timestamp_iso := ts }
          else if hasData then
            { provider := "leakcheck", username := username, url := url,
              status := .found, http_status := some code, elapsed_ms := el,
              evidence := evidence, profile := profile0 ++ extras,
              timestamp_iso := ts }
          else
            { provider := "leakcheck", username := username, url := url,
              status := .not_found, http_status := some code, elapsed_ms := el,
              evidence := evidence, profile := profile0,
              timestamp_iso := ts }
        else if code == 401 then
          { provider := "leakcheck", username := username, url := url,
            status := .error, http_status := some code, elapsed_ms := el,
            evidence := evidence, profile := profile0,
            error := some "Invalid API key (401) — check leakcheck_api_key in Settings.",
            timestamp_iso := ts }
        else if code == 429 then
          { provider := "leakcheck", username := username, url := url,
            status := .blocked, http_status := some code, elapsed_ms := el,
            evidence := evidence, profile := profile0,
            error := some "Rate limited (429) — LeakCheck limit is 3 req/sec.",
            timestamp_iso := ts }
        else if code == 503 then
          { provider := "leakcheck", username := username, url := url,
            status := .blocked, http_status := some code, elapsed_ms := el,
            evidence := evidence, profile := profile0,
            error := some "LeakCheck service unavailable (503).",
            timestamp_iso := ts }
        else
          { provider := "leakcheck", username := username, url := url,
            status := .unknown, http_status := some code, elapsed_ms := el,
            evidence := evidence, profile := profile0,
            error := some ("Unexpected response (" ++ toString code ++ ")."),
            timestamp_iso := ts }

/-! ## Snusbase provider (`providers/snusbase.py`) -/

/-- `SnusbaseProvider._determine_types` lines 65-78. -/
def sbTypes (term : String) : List String :=
  if term.data.contains '@' && term.data.contains '.' then ["email"]
  else if isPhoneLike term then ["username", "email"]
  else if isIpDotQuad term then ["lastip"]
  else ["email", "username"]

/-- Network observation of `SnusbaseProvider.check`: a raised exception, or
a response with its status code, whether the flattened per-database record
list is non-empty, and the `profile` entries the found branch extracts
(opaque here). -/
inductive SBNet where
  | raised (msg : String) (elapsedMs : Nat)
  | responded (code : Nat) (hasData : Bool) (foundExtras : List (String × JVal))
      (elapsedMs : Nat)

/-- `SnusbaseProvider.check` lines 80-267. -/
def snusbaseCheck (apiKey : Option String) (username ts : String) (net : SBNet) :
    ProviderResult :=
  let url := "https://api.snusbase.com/data/search"
  if pyFalsyStr apiKey then
    { provider := "snusbase", username := username, url := url,
      status := .unknown, http_status := none, elapsed_ms := 0,
      evidence := [], profile := [],
      error := some "Skipped: Snusbase API key not set in Settings (snusbase_api_key).",
      timestamp_iso := ts }
  else if pyStrip username = "" then
    { provider := "snusbase", username := username, url := url,
      status := .error, http_status := none, elapsed_ms := 0,
      evidence := [], profile := [],
      error := some "Empty input.", timestamp_iso := ts }
  else
    let term := pyStrip username
    let profile0 : List (String × JVal) :=
      [("account", .jstr term),
       ("types_searched", .jarr ((sbTypes term).map JVal.jstr))]
    let evidence : List (String × JVal) := [("snusbase", .jbool true)]
    match net with
    | .raised e el =>
        { provider := "snusbase", username := username, url := url,
          status := .error, http_status := none, elapsed_ms := el,
          evidence := evidence, profile := profile0,
          error := some e, timestamp_iso := ts }
    | .responded code hasData extras el =>
        if code == 200 then
          if hasData then
            { provider := "snusbase", username := username, url := url,
              status := .found, http_status := some code, elapsed_ms := el,
              evidence := evidence, profile := profile0 ++ extras,
              timestamp_iso := ts }
          else
            { provider := "snusbase", username := username, url := url,
              status := .not_found, http_status := some code, elapsed_ms := el,
              evidence := evidence, profile := profile0,
              timestamp_iso := ts }
        else if code == 401 then
          { provider := "snusbase", username := username, url := url,
            status := .error, http_status := some code, elapsed_ms := el,
            evidence := evidence, profile := profile0,
            error := some "Invalid API key (401) - check snusbase_api_key in Settings.",
            timestamp_iso := ts }
        else if code == 429 then
          { provider := "snusbase", username := username, url := url,
            status := .blocked, http_status := some code, elapsed_ms := el,
            evidence := evidence, profile := profile0,
            error := some "Rate limited (2048 req/day exceeded).",
            timestamp_iso := ts }
        else if code == 503 then
          { provider := "snusbase", username := username, url := url,
            status := .blocked, http_status := some code, elapsed_ms := el,
            evidence := evidence, profile := profile0,
            error := some "Snusbase service unavailable (503).",
            timestamp_iso := ts }
        else
          { provider := "snusbase", username := username, url := url,
            status := .unknown, http_status := some code, elapsed_ms := el,
            evidence := evidence, profile := profile0,
            error := some ("Unexpected response (" ++ toString code ++ ")."),
            timestamp_iso := ts }

/-! ## BreachVIP provider (`providers/breach_vip.py`) -/

/-- `list(dict.fromkeys(l))`: deduplicate keeping the first occurrence. -/
def dedupKeepFirst (l : List String) : List String :=
  l.foldl (fun acc x => if acc.contains x then acc else acc ++ [x]) []

/-- `BreachVIPProvider._determine_search_fields` lines 35-67. -/
def bvFields (term : String) : List String :=
  let fields :=
    if term.data.contains '@' && term.data.contains '.' then
      ["email", "username", "name"]
    else if term.data.contains '.' && !term.data.contains '@' then
      ["username", "email", "name", "domain"]
    else ["username", "email", "name"]
  let fields := if isPhoneLike term then fields ++ ["phone"] else fields
  let fields :=
    if !term.isEmpty && term.data.all Char.isDigit &&
        17 ≤ term.length && term.length ≤ 20 then
      fields ++ ["discordid"]
    else fields
  let fields := if term.length == 36 && term.data.contains '-' then
      fields ++ ["uuid"]
    else fields
  let fields := if isIpDotQuad term then fields ++ ["ip"] else fields
  (dedupKeepFirst (fields ++ ["password"])).take 10

/-- Network observation of `BreachVIPProvider.check`: a raised exception,
or a response with its status code, whether the unwrapped record list is
non-empty, and the `profile` entries the found branch extracts (opaque). -/
inductive BVNet where
  | raised (msg : String) (elapsedMs : Nat)
  | responded (code : Nat) (hasData : Bool) (foundExtras : List (String × JVal))
      (elapsedMs : Nat)

/-- `BreachVIPProvider.check` lines 69-340.  `build_url` is the constant
API endpoint. -/
def breachvipCheck (username ts : String) (net : BVNet) : ProviderResult :=
  let url := "https://breach.vip/api/search"
  let term := pyStrip username
  if term = "" then
    { provider := "breachvip", username := username, url := url,
      status := .error, http_status := none, elapsed_ms := 0,
      evidence := [("breachvip", .jbool true)], profile := [],
      error := some "empty input", timestamp_iso := ts }
  else
    let profile0 : List (String × JVal) :=
      [("account", .jstr term),
       ("fields_searched", .jarr ((bvFields term).map JVal.jstr))]
    let evidence : List (String × JVal) := [("breachvip", .jbool true)]
    match net with
    | .raised e el =>
        { provider := "breachvip", username := username, url := url,
          status := .error, http_status := none, elapsed_ms := el,
          evidence := evidence, profile := profile0,
          error := some e, timestamp_iso := ts }
    | .responded code hasData extras el =>
        if code == 200 then
          if hasData then
            { provider := "breachvip", username := username, url := url,
              status := .found, http_status := some code, elapsed_ms := el,
              evidence := evidence, profile := profile0 ++ extras,
              timestamp_iso := ts }
          else
            { provider := "breachvip", username := username, url := url,
              status := .not_found, http_status := some code, elapsed_ms := el,
              evidence := evidence, profile := profile0,
              timestamp_iso := ts }
        else if code == 400 then
          { provider := "breachvip", username := username, url := url,
            status := .error, http_status := some code, elapsed_ms := el,
            evidence := evidence, profile := profile0,
            error := some "Bad request - check search parameters",
            timestamp_iso := ts }
        else if code == 403 then
          { provider := "breachvip", username := username, url := url,
            status := .blocked, http_status := some code, elapsed_ms := el,
            evidence := evidence, profile := profile0,
            error := some "Access Denied (Cloudflare). Your server IP might be flagged. Try searching manually at breach.vip.",
            timestamp_iso := ts }
        else if code == 405 then
          { provider := "breachvip", username := username, url := url,
            status := .error, http_status := some code, elapsed_ms := el,
            evidence := evidence, profile := profile0,
            error := some "Method not allowed", timestamp_iso := ts }
        else if code == 429 then
          { provider := "breachvip", username := username, url := url,
            status := .blocked, http_status := some code, elapsed_ms := el,
            evidence := evidence, profile := profile0,
            error := some "Rate limited (15 requests/minute) - wait 1 minute",
            timestamp_iso := ts }
        else if code == 503 then
          { provider := "breachvip", username := username, url := url,
            status := .blocked, http_status := some code, elapsed_ms := el,
            evidence := evidence, profile := profile0,
            error := some "Service unavailable (503) - breach.vip may be down or blocking requests",
            timestamp_iso := ts }
        else if code == 500 then
          { provider := "breachvip", username := username, url := url,
            status := .error, http_status := some code, elapsed_ms := el,
            evidence := evidence, profile := profile0,
            error := some "Internal server error", timestamp_iso := ts }
        else
          { provider := "breachvip", username := username, url := url,
            status := .unknown, http_status := some code, elapsed_ms := el,
            evidence := evidence, profile := profile0,
            error := some ("Unexpected response (" ++ toString code ++ ")"),
            timestamp_iso := ts }

/-! ## GoyimTV provider (`providers/goyimtv.py`) -/

/-- Python `d[k] = v` on an insertion-ordered dictionary: overwrite in
place if the key exists, else append. -/
def setHeader (hs : List (String × String)) (k v : String) :
    List (String × String) :=
  if hs.any (fun p => p.1 == k) then
    hs.map (fun p => if p.1 == k then (k, v) else p)
  else hs ++ [(k, v)]

/-- `GoyimTVProvider.check` lines 33-43: the eight assignments made
directly into the header mapping passed by the engine, before the GET. -/
def goyimtvHeadersAfter (hs : List (String × String)) : List (String × String) :=
  let hs := setHeader hs "Accept"
    "text/html,application/xhtml+xml,application/xml;q=0.9,image/avif,image/webp,*/*;q=0.8"
  let hs := setHeader hs "Accept-Language" "en-US,en;q=0.5"
  let hs := setHeader hs "Referer" "https://goyimtv.st/"
  let hs := setHeader hs "Upgrade-Insecure-Requests" "1"
  let hs := setHeader hs "Sec-Fetch-Dest" "document"
  let hs := setHeader hs "Sec-Fetch-Mode" "navigate"
  let hs := setHeader hs "Sec-Fetch-Site" "same-origin"
  setHeader hs "Sec-Fetch-User" "?1"

/-- One search-result page as GoyimTV's check observes it: the HTTP status
code of the (possibly once-retried, lines 50-57) final response, the
lowercased body features it branches on, the anchor links (raw `href` and
raw anchor text), the optional `<title>` string, and the landing-page
heuristic of line 107 (`"welcome to goyimtv" in text and "search" not in
r.url.path`). -/
structure GTVPage where
  code : Nat
  hasNotFoundIndicator : Bool
  links : List (String × String)
  title : Option String
  textLen : Nat
  isWelcomeHome : Bool

/-- Network observation of `GoyimTVProvider.check`. -/
inductive GTVNet where
  | raised (msg : String) (elapsedMs : Nat)
  | page (pg : GTVPage) (elapsedMs : Nat)

/-- goyimtv.py lines 79-98: is there an anchor whose lowered `href`
contains `/channel/` with stripped-lowered text equal to the lowered
username, or whose lowered `href` contains `/channel/{username.lower()}`? -/
def gtvFoundMatch (username : String) (links : List (String × String)) : Bool :=
  links.any (fun l =>
    (hasSubstr l.1.toLower "/channel/" && (pyStrip l.2).toLower == username.toLower) ||
    hasSubstr l.1.toLower ("/channel/" ++ username.toLower))

/-- goyimtv.py lines 62-115: the verdict.  Every branch that leaves the
initial `UNKNOWN` assigns `FOUND` or `NOT_FOUND`, and all three fall-through
sub-branches of the unmatched case assign `NOT_FOUND`. -/
def gtvStatus (username : String) (pg : GTVPage) : ResultStatus :=
  if pg.hasNotFoundIndicator then .not_found
  else if gtvFoundMatch username pg.links then .found
  else .not_found

/-- `GoyimTVProvider.check` lines 24-142 (Python `urllib.parse.quote_plus`
is abstracted by `quotePlus`, a parameter standing for the URL-encoding of
the username in `build_url`). -/
def goyimtvCheck (quotePlus : String → String) (username ts : String)
    (net : GTVNet) : ProviderResult :=
  let url := "https://goyimtv.st/search?tf=6&q=" ++ quotePlus username
  match net with
  | .raised e el =>
      { provider := "goyimtv", username := username, url := url,
        status := .error, error := some e, elapsed_ms := el,
        profile := [], timestamp_iso := ts }
  | .page pg el =>
      let status := gtvStatus username pg
      let profile := if status = .found then
          match pg.title with
          | some t => [("page_title", JVal.jstr (pyStrip t))]
          | none => []
        else []
      { provider := "goyimtv", username := username, url := url,
        status := status, http_status := some pg.code, elapsed_ms := el,
        evidence := [("len", .jnum pg.textLen),
                     ("title", match pg.title with
                       | some t => .jstr t
                       | none => .null)],
        profile := profile, timestamp_iso := ts }

/-! ## Header effects of the other probes

Each probe's `check` receives the per-probe merged header mapping from
`run_one`.  GoyimTV assigns into it (`goyimtvHeadersAfter`); the seven
other probes leave it untouched: HIBP and BreachVIP copy it first
(`dict(headers)`, hibp.py line 82, breach_vip.py line 90) and mutate only
the copy, LeakCheck, Snusbase and Discord never read it, and Stack
Overflow and Goodreads pass it to `client.get` unchanged. -/

/-- hibp.py: the passed mapping after `check` (a copy is mutated, lines
82-84, the original is untouched). -/
def hibpHeadersAfter (hs : List (String × String)) : List (String × String) := hs

/-- hibp.py lines 82-84: the private copy the requests are sent with. -/
def hibpRequestHeaders (apiKey : String) (hs : List (String × String)) :
    List (String × String) :=
  setHeader (setHeader hs "hibp-api-key" apiKey) "user-agent" "Social-Hunt"

/-- breach_vip.py: the passed mapping after `check` (a copy is mutated,
lines 90-112, the original is untouched). -/
def breachvipHeadersAfter (hs : List (String × String)) : List (String × String) := hs

/-- leakcheck.py: the passed mapping after `check` (the request uses a
fresh literal header dictionary, lines 126-130). -/
def leakcheckHeadersAfter (hs : List (String × String)) : List (String × String) := hs

/-- snusbase.py: the passed mapping after `check` (the request uses a fresh
literal header dictionary, lines 126-129). -/
def snusbaseHeadersAfter (hs : List (String × String)) : List (String × String) := hs

/-- discord.py: the passed mapping after `check` (never read). -/
def discordHeadersAfter (hs : List (String × String)) : List (String × String) := hs

/-- stackoverflow.py: the passed mapping after `check` (forwarded to
`client.get` unmodified, line 45). -/
def soHeadersAfter (hs : List (String × String)) : List (String × String) := hs

/-- goodreads.py: the passed mapping after `check` (forwarded to
`client.get` unmodified, line 27). -/
def goodreadsHeadersAfter (hs : List (String × String)) : List (String × String) := hs

/-! ## Claim theorems -/

/-- C1 (counterexample): `scan_username` does NOT swallow addon failures.
With an empty registry and a single caller-supplied dynamic addon whose
`run` raises, the engine call itself raises: the bare
`asyncio.gather(*addon_tasks)` of engine.py line 169 re-raises the addon's
exception and nothing catches it. -/
theorem scan_propagates_addon_exception :
    scanUsername [] "alice" none [⟨fun _ _ => .error "boom"⟩] [] []
      (fun _ => none) false (fun _ v => v) (fun v => v) "" = .error "boom" := rfl

/-- C1 (amended): `scan_username` returns a result list exactly when every
addon run in the pipeline returns normally; an exception raised by an
enabled or dynamic addon's `run` is not swallowed but propagates to the
caller as the scan's own failure.  (Probe-side timeouts never make the
scan fail: `run_one` converts them to ERROR records.) -/
theorem scan_error_iff_addon_error (registry : List (String × Probe))
    (u : String) (providers : Option (List String)) (dyn : List Addon)
    (enabled : List String) (areg : List (String × Addon))
    (outcomes : String → Option ProviderResult) (demo : Bool)
    (cv : String → JVal → JVal) (cb : List JVal → List JVal) (ts e : String) :
    scanUsername registry u providers dyn enabled areg outcomes demo cv cb ts
        = .error e ↔
      runAddons u (addonsToRun areg enabled dyn)
        (probeResults registry u ts providers outcomes demo cv cb) = .error e := by
  cases hr : runAddons u (addonsToRun areg enabled dyn)
      (probeResults registry u ts providers outcomes demo cv cb) with
  | ok x => simp [scanUsername, hr]
  | error a => simp [scanUsername, hr]

/-- C2: when a probe's check does not finish within the outer timeout, the
engine synthesises a result with status ERROR, error
`"Timed out after {N}s"`, `elapsed_ms = N*1000`, no `http_status`, and
`url = probe.build_url(identifier)`, where `N = probe.timeout + 5`
(the probe's `timeout_sec` metadata plus the 5-second slack). -/
theorem timeout_result_fields (demo : Bool) (cv : String → JVal → JVal)
    (cb : List JVal → List JVal) (p : Probe) (u ts : String) :
    (runOne demo cv cb p u ts none).status = .error ∧
    (runOne demo cv cb p u ts none).error
      = some ("Timed out after " ++ toString (p.timeout + 5) ++ "s") ∧
    (runOne demo cv cb p u ts none).elapsed_ms = (p.timeout + 5) * 1000 ∧
    (runOne demo cv cb p u ts none).http_status = none ∧
    (runOne demo cv cb p u ts none).url = p.buildUrl u ∧
    (runOne demo cv cb p u ts none).provider = p.name := by
  cases demo <;> simp [runOne, applyDemo]

/-- C3: whenever `scan_username` returns a list, that list is sorted
non-decreasingly by `provider.lower()` — the engine's final
`sorted(results, key=lambda r: r.provider.lower())` — regardless of the
probe outcomes, the completion order (the model quantifies over arbitrary
outcome assignments) and whatever the addons did to the list. -/
theorem scan_result_sorted (registry : List (String × Probe)) (u : String)
    (providers : Option (List String)) (dyn : List Addon)
    (enabled : List String) (areg : List (String × Addon))
    (outcomes : String → Option ProviderResult) (demo : Bool)
    (cv : String → JVal → JVal) (cb : List JVal → List JVal) (ts : String)
    (rs : List ProviderResult)
    (h : scanUsername registry u providers dyn enabled areg outcomes demo cv cb ts
      = .ok rs) :
    rs.Sorted providerLe := by
  cases hr : runAddons u (addonsToRun areg enabled dyn)
      (probeResults registry u ts providers outcomes demo cv cb) with
  | ok x =>
      simp [scanUsername, hr] at h
      exact h ▸ List.sorted_insertionSort providerLe x
  | error a => simp [scanUsername, hr] at h

theorem scan_result_sorted_witness : List.Sorted providerLe [] :=
  scan_result_sorted [] "alice" none [] [] [] (fun _ => none) false
    (fun _ v => v) (fun v => v) "" [] rfl

/-- C4 (counterexample): the working probe set follows the FILTER's order,
not the registry's iteration order.  With registry keys
`["alpha", "beta"]` and filter `["beta", "alpha"]`, the source comprehension
yields `["beta", "alpha"]` while the spec's registry-order intersection
yields `["alpha", "beta"]`. -/
theorem chosen_not_registry_order :
    chosenNames ["alpha", "beta"] (some ["beta", "alpha"]) = ["beta", "alpha"] ∧
    chosenNamesSpec ["alpha", "beta"] (some ["beta", "alpha"]) = ["alpha", "beta"] ∧
    chosenNames ["alpha", "beta"] (some ["beta", "alpha"])
      ≠ chosenNamesSpec ["alpha", "beta"] (some ["beta", "alpha"]) := by
  refine ⟨rfl, rfl, ?_⟩; decide

/-- C4 (amended): a non-empty provider filter yields exactly the filter
names that exist in the registry, in the FILTER's order (a sublist of the
filter); unknown filter names are dropped silently; no filter — and, by
Python truthiness, an empty filter list — yields the full registry. -/
theorem chosen_filter_semantics (reg ps : List String) (n : String)
    (h : ps ≠ []) :
    (n ∈ chosenNames reg (some ps) ↔ n ∈ ps ∧ n ∈ reg) ∧
    (chosenNames reg (some ps)).Sublist ps ∧
    chosenNames reg none = reg ∧
    chosenNames reg (some []) = reg := by
  have hps : ps.isEmpty = false := by
    cases ps with
    | nil => exact absurd rfl h
    | cons a l => rfl
  refine ⟨?_, ?_, rfl, rfl⟩
  · simp [chosenNames, hps, List.mem_filter, And.comm]
  · simp only [chosenNames, hps, if_neg Bool.false_ne_true]
    exact List.filter_sublist ps

theorem chosen_filter_semantics_witness :
    chosenNames ["p1"] none = ["p1"] :=
  (chosen_filter_semantics ["p1"] ["p1", "ghost"] "ghost" (by decide)).2.2.1

/-- C5: client routing of `run_one` — first matching rule wins: the Tor
client exactly when the URL contains `.onion` and the Tor client exists;
otherwise the clearnet-proxy client exactly when the probe opts in and
that client exists; otherwise the direct client. -/
theorem client_selection (url : String) (t c u : Bool) :
    (selectClient url t c u = .tor ↔ (hasSubstr url ".onion" && t) = true) ∧
    (selectClient url t c u = .clearnetProxy ↔
      (hasSubstr url ".onion" && t) = false ∧ (u && c) = true) ∧
    (selectClient url t c u = .direct ↔
      (hasSubstr url ".onion" && t) = false ∧ (u && c) = false) := by
  cases h : hasSubstr url ".onion" <;> cases t <;> cases c <;> cases u <;>
    simp [selectClient, h]

/-- The GoyimTV verdict logic only ever assigns FOUND or NOT_FOUND
(goyimtv.py lines 62-115), so it can never be BLOCKED. -/
theorem gtvStatus_ne_blocked (u : String) (pg : GTVPage) :
    gtvStatus u pg ≠ .blocked := by
  unfold gtvStatus
  split
  · simp
  · split <;> simp

/-- GoyimTV never emits a BLOCKED result (its soft-block handling retries
instead of escalating, goyimtv.py lines 50-57). -/
theorem goyimtv_never_blocked (qp : String → String) (u ts : String)
    (net : GTVNet) : (goyimtvCheck qp u ts net).status ≠ .blocked := by
  cases net with
  | raised e el => simp [goyimtvCheck]
  | page pg el =>
      simp only [goyimtvCheck]
      exact gtvStatus_ne_blocked u pg

/-- Goodreads never emits a BLOCKED result. -/
theorem goodreads_never_blocked (u ts : String) (net : GRNet) :
    (goodreadsCheck u ts net).status ≠ .blocked := by
  cases net with
  | raised e => simp [goodreadsCheck]
  | page code pp => cases pp <;> simp [goodreadsCheck]

/-- Stack Overflow never emits a BLOCKED result. -/
theorem so_never_blocked (u ts : String) (net : SONet) :
    (stackoverflowCheck u ts net).status ≠ .blocked := by
  by_cases hc : soCleanId u = ""
  · simp [stackoverflowCheck, hc]
  · cases net with
    | raised e => simp [stackoverflowCheck, hc]
    | page code b1 b2 fu =>
        simp only [stackoverflowCheck, hc, if_neg, ite_false, ne_eq]
        split <;> simp

/-- Discord never emits a BLOCKED result. -/
theorem discord_never_blocked (u ts : String) :
    (discordCheck u ts).status ≠ .blocked := by
  simp only [discordCheck]
  split <;> simp

/-- C6 (counterexample): a 503 response does NOT always yield BLOCKED.
HIBP's status ladder (hibp.py lines 130-140) sends 5xx — including 503 —
to ERROR, so with both HIBP sub-requests answering 503 the emitted result
examines HTTP status 503 yet carries status ERROR. -/
theorem hibp_503_is_error_not_blocked :
    (hibpCheck (some "key") "a@b.com" "" (.ok 503 503 [] 0 0)).http_status
        = some 503 ∧
    (hibpCheck (some "key") "a@b.com" "" (.ok 503 503 [] 0 0)).status
        = .error ∧
    (hibpCheck (some "key") "a@b.com" "" (.ok 503 503 [] 0 0)).status
        ≠ .blocked := by
  refine ⟨?_, ?_, ?_⟩ <;> decide

/-- C6 (amended): the 403/429/503-means-BLOCKED rule holds only for
BreachVIP.  LeakCheck and Snusbase map 429 and 503 to BLOCKED but 403 to
UNKNOWN; HIBP maps 429 to BLOCKED (when neither sub-request found data)
but 503 to ERROR and 403 to UNKNOWN; GoyimTV, Goodreads, Stack Overflow
and Discord never emit BLOCKED at all. -/
theorem blocked_status_by_provider (k u ts : String) (el np : Nat)
    (ns : List String) (success : Bool) (fm : Option String) (hasData : Bool)
    (extras : List (String × JVal)) (qp : String → String) (gnet : GTVNet)
    (grnet : GRNet) (sonet : SONet)
    (hk : pyFalsyStr (some k) = false)
    (hu : pyStrip u ≠ "")
    (hw : hasSubstr u "*" = false)
    (he : hibpEmailFormat u = true) :
    (hibpCheck (some k) u ts (.ok 429 429 ns np el)).status = .blocked ∧
    (hibpCheck (some k) u ts (.ok 503 503 ns np el)).status = .error ∧
    (hibpCheck (some k) u ts (.ok 403 403 ns np el)).status = .unknown ∧
    (leakcheckCheck (some k) u ts
      (.responded 429 success fm hasData extras el)).status = .blocked ∧
    (leakcheckCheck (some k) u ts
      (.responded 503 success fm hasData extras el)).status = .blocked ∧
    (leakcheckCheck (some k) u ts
      (.responded 403 success fm hasData extras el)).status = .unknown ∧
    (snusbaseCheck (some k) u ts (.responded 429 hasData extras el)).status
        = .blocked ∧
    (snusbaseCheck (some k) u ts (.responded 503 hasData extras el)).status
        = .blocked ∧
    (snusbaseCheck (some k) u ts (.responded 403 hasData extras el)).status
        = .unknown ∧
    (breachvipCheck u ts (.responded 403 hasData extras el)).status = .blocked ∧
    (breachvipCheck u ts (.responded 429 hasData extras el)).status = .blocked ∧
    (breachvipCheck u ts (.responded 503 hasData extras el)).status = .blocked ∧
    (goyimtvCheck qp u ts gnet).status ≠ .blocked ∧
    (goodreadsCheck u ts grnet).status ≠ .blocked ∧
    (stackoverflowCheck u ts sonet).status ≠ .blocked ∧
    (discordCheck u ts).status ≠ .blocked := by
  refine ⟨?_, ?_, ?_, ?_, ?_, ?_, ?_, ?_, ?_, ?_, ?_, ?_,
    goyimtv_never_blocked qp u ts gnet, goodreads_never_blocked u ts grnet,
    so_never_blocked u ts sonet, discord_never_blocked u ts⟩ <;>
    simp [hibpCheck, leakcheckCheck, snusbaseCheck, breachvipCheck,
      hibpStatusOf, hk, hu, hw, he]

theorem blocked_status_by_provider_witness :
    (hibpCheck (some "key") "a@b.com" ""
      (.ok 429 429 [] 0 0)).status = .blocked :=
  (blocked_status_by_provider "key" "a@b.com" "" 0 0 [] true none false []
    id (.raised "" 0) (.raised "") (.raised "") (by decide) (by decide)
    (by decide) (by decide)).1

/-- The error-field discipline every emitted result actually satisfies:
no FOUND result carries an error string, and every ERROR and every BLOCKED
result carries one. -/
def errorFieldOk (r : ProviderResult) : Bool :=
  (!(r.status == .found) || (r.error == none)) &&
  ((!(r.status == .error) && !(r.status == .blocked)) || !(r.error == none))

theorem hibp_error_field (key : Option String) (u ts : String) (net : HibpNet) :
    errorFieldOk (hibpCheck key u ts net) = true := by
  unfold hibpCheck
  split
  · rfl
  split
  · rfl
  split
  · rfl
  cases net with
  | raised e => rfl
  | ok bc pc ns np el =>
      dsimp only
      cases hst : hibpStatusOf bc pc <;> simp [errorFieldOk, hst]

theorem leakcheck_error_field (key : Option String) (u ts : String)
    (net : LCNet) : errorFieldOk (leakcheckCheck key u ts net) = true := by
  unfold leakcheckCheck
  cases net
  all_goals dsimp only
  all_goals repeat' split
  all_goals rfl

theorem snusbase_error_field (key : Option String) (u ts : String)
    (net : SBNet) : errorFieldOk (snusbaseCheck key u ts net) = true := by
  unfold snusbaseCheck
  cases net
  all_goals dsimp only
  all_goals repeat' split
  all_goals rfl

theorem breachvip_error_field (u ts : String) (net : BVNet) :
    errorFieldOk (breachvipCheck u ts net) = true := by
  unfold breachvipCheck
  cases net
  all_goals dsimp only
  all_goals repeat' split
  all_goals rfl

/-- The GoyimTV verdict is always FOUND or NOT_FOUND. -/
theorem gtvStatus_cases (u : String) (pg : GTVPage) :
    gtvStatus u pg = .found ∨ gtvStatus u pg = .not_found := by
  unfold gtvStatus
  split
  · exact Or.inr rfl
  · split
    · exact Or.inl rfl
    · exact Or.inr rfl

theorem goyimtv_error_field (qp : String → String) (u ts : String)
    (net : GTVNet) : errorFieldOk (goyimtvCheck qp u ts net) = true := by
  cases net with
  | raised e el => rfl
  | page pg el =>
      rcases gtvStatus_cases u pg with h | h <;>
        simp [goyimtvCheck, errorFieldOk, h]

theorem goodreads_error_field (u ts : String) (net : GRNet) :
    errorFieldOk (goodreadsCheck u ts net) = true := by
  cases net with
  | raised e => rfl
  | page code pp => cases pp <;> rfl

theorem so_error_field (u ts : String) (net : SONet) :
    errorFieldOk (stackoverflowCheck u ts net) = true := by
  unfold stackoverflowCheck
  cases net
  all_goals dsimp only
  all_goals repeat' split
  all_goals rfl

theorem discord_error_field (u ts : String) :
    errorFieldOk (discordCheck u ts) = true := by
  unfold discordCheck
  dsimp only
  split <;> rfl

/-- C7 (counterexample): an UNKNOWN result need not carry an error string.
When both HIBP sub-requests answer 403 (neither 200, 429, 404 nor 5xx),
hibp.py lines 130-146 leave `error_msg = None` while the status falls
through to UNKNOWN, so the emitted record is UNKNOWN with a null error. -/
theorem hibp_unknown_without_error :
    (hibpCheck (some "key") "a@b.com" "" (.ok 403 403 [] 0 0)).status
        = .unknown ∧
    (hibpCheck (some "key") "a@b.com" "" (.ok 403 403 [] 0 0)).error
        = none := by
  refine ⟨?_, ?_⟩ <;> decide

/-- C7 (amended): across every probe and every path, a FOUND result never
carries an error string, and every ERROR and every BLOCKED result carries
one; UNKNOWN and NOT_FOUND results may carry one or not (HIBP emits
UNKNOWN with no error on unexpected status pairs). -/
theorem error_field_discipline (key : Option String) (u ts : String)
    (qp : String → String) (hn : HibpNet) (ln : LCNet) (sn : SBNet)
    (bn : BVNet) (gn : GTVNet) (grn : GRNet) (son : SONet) :
    errorFieldOk (hibpCheck key u ts hn) = true ∧
    errorFieldOk (leakcheckCheck key u ts ln) = true ∧
    errorFieldOk (snusbaseCheck key u ts sn) = true ∧
    errorFieldOk (breachvipCheck u ts bn) = true ∧
    errorFieldOk (goyimtvCheck qp u ts gn) = true ∧
    errorFieldOk (goodreadsCheck u ts grn) = true ∧
    errorFieldOk (stackoverflowCheck u ts son) = true ∧
    errorFieldOk (discordCheck u ts) = true :=
  ⟨hibp_error_field key u ts hn, leakcheck_error_field key u ts ln,
   snusbase_error_field key u ts sn, breachvip_error_field u ts bn,
   goyimtv_error_field qp u ts gn, goodreads_error_field u ts grn,
   so_error_field u ts son, discord_error_field u ts⟩

/-- C8 (counterexample): the `username` field is not always an exact echo.
Stack Overflow's HTTP-success path reports the digit-filtered ID
(stackoverflow.py line 57, `username=clean_id`): for input `"user123"` the
emitted record carries `"123"`. -/
theorem so_username_not_echo :
    (stackoverflowCheck "user123" "" (.page 200 true true
      "https://stackoverflow.com/users/123")).username = "123" ∧
    "123" ≠ "user123" := by
  refine ⟨?_, ?_⟩ <;> decide

/-- C8 (amended): every probe echoes the input identifier unchanged in
`username` — except Stack Overflow, which echoes it on its no-digits and
exception paths but reports the digit-filtered ID on its response path. -/
theorem username_echo_by_provider (key : Option String) (u ts e fu : String)
    (qp : String → String) (code : Nat) (b1 b2 : Bool) (hn : HibpNet)
    (ln : LCNet) (sn : SBNet) (bn : BVNet) (gn : GTVNet) (grn : GRNet) :
    (hibpCheck key u ts hn).username = u ∧
    (leakcheckCheck key u ts ln).username = u ∧
    (snusbaseCheck key u ts sn).username = u ∧
    (breachvipCheck u ts bn).username = u ∧
    (goyimtvCheck qp u ts gn).username = u ∧
    (goodreadsCheck u ts grn).username = u ∧
    (discordCheck u ts).username = u ∧
    (stackoverflowCheck u ts (.raised e)).username = u ∧
    (stackoverflowCheck u ts (.page code b1 b2 fu)).username
      = (if soCleanId u = "" then u else soCleanId u) := by
  refine ⟨?_, ?_, ?_, ?_, ?_, ?_, ?_, ?_, ?_⟩
  · unfold hibpCheck
    cases hn
    all_goals dsimp only
    all_goals repeat' split
    all_goals rfl
  · unfold leakcheckCheck
    cases ln
    all_goals dsimp only
    all_goals repeat' split
    all_goals rfl
  · unfold snusbaseCheck
    cases sn
    all_goals dsimp only
    all_goals repeat' split
    all_goals rfl
  · unfold breachvipCheck
    cases bn
    all_goals dsimp only
    all_goals repeat' split
    all_goals rfl
  · cases gn <;> rfl
  · cases grn with
    | raised e2 => rfl
    | page code2 pp => cases pp <;> rfl
  · rfl
  · unfold stackoverflowCheck
    dsimp only
    split <;> rfl
  · unfold stackoverflowCheck
    by_cases hc : soCleanId u = "" <;> simp [hc]

/-- C9 (counterexample): GoyimTV's check mutates the header mapping passed
to it.  Starting from an empty mapping, goyimtv.py lines 33-43 assign
eight keys directly into it, so the mapping after the call differs from
its value at entry. -/
theorem goyimtv_mutates_headers :
    goyimtvHeadersAfter [] ≠ [] := by decide

/-- C9 (amended): no probe's check mutates the header mapping passed to it
except GoyimTV's, which assigns eight browser-mimicry keys into it (HIBP
and BreachVIP mutate only a private `dict(headers)` copy; the rest never
write to it). -/
theorem headers_unmutated_except_goyimtv (hs : List (String × String)) :
    hibpHeadersAfter hs = hs ∧
    breachvipHeadersAfter hs = hs ∧
    leakcheckHeadersAfter hs = hs ∧
    snusbaseHeadersAfter hs = hs ∧
    discordHeadersAfter hs = hs ∧
    soHeadersAfter hs = hs ∧
    goodreadsHeadersAfter hs = hs ∧
    goyimtvHeadersAfter [] ≠ [] :=
  ⟨rfl, rfl, rfl, rfl, rfl, rfl, rfl, by decide⟩

/-- C10: Discord's check is a pure format validator — the model takes no
network observation because the source performs no HTTP request — and its
result always has `http_status = None` and `elapsed_ms = 0`; it is
NOT_FOUND with the format error exactly when the stripped identifier
matches neither the 17-20-digit user-ID pattern nor the 2-10-alphanumeric
invite pattern, and UNKNOWN with the not-verifiable error otherwise. -/
theorem discord_check_characterization (u ts : String) :
    (discordCheck u ts).http_status = none ∧
    (discordCheck u ts).elapsed_ms = 0 ∧
    ((discordCheck u ts).status = .not_found ∧
      (discordCheck u ts).error
        = some "Invalid Discord ID or invite code format." ↔
      (discordIdPat (pyStrip u) || discordInvitePat (pyStrip u)) = false) ∧
    ((discordCheck u ts).status = .unknown ∧
      (discordCheck u ts).error
        = some "Verification not possible. Discord profiles are not public." ↔
      (discordIdPat (pyStrip u) || discordInvitePat (pyStrip u)) = true) := by
  refine ⟨rfl, rfl, ?_, ?_⟩ <;>
    cases hid : discordIdPat (pyStrip u) <;>
      cases hinv : discordInvitePat (pyStrip u) <;>
        simp [discordCheck, hid, hinv]
